import Mathlib

/-!
Verification development for the real-time voice interaction pipeline of the
Indic-Copilot repository (client/src/hooks/use-voice.ts).

The source file contains two materially different hook variants:

* Variant A (the MediaRecorder / energy-VAD / Sarvam tiered-TTS implementation,
  lines 1-924 of use-voice.ts) — modelled in namespace `VarA`.
* Variant B (the Silero-VAD / Web-Speech continuous-recognizer implementation,
  lines 925-1373) — its recognizer result handling is modelled in namespace
  `VarB`.

The session is single-threaded and event/callback driven, so variant A is
embedded as an explicit state record `VarA.VoiceState` together with a step
function over an event alphabet `VarA.Ev`.  Each event is one synchronous
callback dispatch of the source: a user API call (`startListening`,
`stopListening`, `speak`, `stopSpeaking`), one iteration of the energy-monitor
`requestAnimationFrame` loop, the `MediaRecorder.onstop` + `/api/stt`
continuation, the un-named 800 ms auto-send `setTimeout` firing, or the
completion of a `speak()` tier chain.  Asynchronous collaborator outcomes
(microphone acquisition, STT transcripts, TTS tier results, platform-synthesis
callbacks) are oracle inputs of the corresponding events.  Observable callback
invocations (`onAutoSend`, `onResult`, `onSpeakEnd`, playback start, detector
events) are returned as an output list per step.

Floating point RMS energies and audio levels are modelled exactly, scaled by
1000 (a value of 15 stands for the source's 0.015): the claims under study
concern only the comparison structure of the detector, not float rounding.
-/

/-- Model of JavaScript's String.prototype.trim: strips leading and trailing
whitespace.  Defined by structural recursion over the character list so that
concrete traces evaluate inside the kernel (core's String.trim is defined by
well-founded recursion over byte positions and does not reduce there). -/
def jsTrim (s : String) : String :=
  String.mk (((s.data.dropWhile Char.isWhitespace).reverse.dropWhile
    Char.isWhitespace).reverse)

namespace VarA

/-- Observable outputs of one callback dispatch: callback-hook invocations and
detector events of the energy monitor. -/
inductive Out : Type
  | autoSend (text : String)
  | result (text : String)
  | speakEnd
  | playStart
  | speechStart
  | speechEnd
  | misfire
  deriving Repr, DecidableEq

/-- Session state of variant A.  Each field mirrors one mutable ref or React
state cell of the hook: `isActive` (isActiveRef), `isListening`/`isSpeaking`/
`transcript`/`interimTranscript`/`audioLevel`/`vadReady`/`userSpeaking` (React
state), `accumulatedText` (accumulatedTextRef), `hasSpeech` (hasSpeechRef),
`isSpeechActive` (isSpeechActiveRef), `energyMonitorPaused`
(energyMonitorPausedRef), `monitorArmed` (whether the animation-frame monitor
loop is scheduled), `isRecording` (isRecordingRef), `speakingGuard`
(speakingGuardRef), `speakInFlight` (an un-resolved speak() continuation
exists), `hasMediaStream` (mediaStreamRef non-null), `hasAnalyserCtx`
(analyserCtxRef non-null), `speechStartTime`/`lastSpeechTime` (the detector
timestamp refs, in ms), `pendingAutoSends` (the payloads of scheduled 800 ms
auto-send timeouts of recorder.onstop, which are stored in no ref and hence
not cleared by clearTimers), and `pendingRecStops` (recorder stops whose
asynchronous onstop continuation has not run yet). -/
structure VoiceState : Type where
  isActive : Bool
  isListening : Bool
  isSpeaking : Bool
  transcript : String
  interimTranscript : String
  audioLevel : Nat
  vadReady : Bool
  userSpeaking : Bool
  accumulatedText : String
  hasSpeech : Bool
  isSpeechActive : Bool
  energyMonitorPaused : Bool
  monitorArmed : Bool
  isRecording : Bool
  speakingGuard : Bool
  speakInFlight : Bool
  hasMediaStream : Bool
  hasAnalyserCtx : Bool
  speechStartTime : Nat
  lastSpeechTime : Nat
  pendingAutoSends : List String
  pendingRecStops : Nat
  deriving Repr, DecidableEq

/-- Initial state: every flag false, every buffer empty, no pending work. -/
def initState : VoiceState where
  isActive := false
  isListening := false
  isSpeaking := false
  transcript := ""
  interimTranscript := ""
  audioLevel := 0
  vadReady := false
  userSpeaking := false
  accumulatedText := ""
  hasSpeech := false
  isSpeechActive := false
  energyMonitorPaused := false
  monitorArmed := false
  isRecording := false
  speakingGuard := false
  speakInFlight := false
  hasMediaStream := false
  hasAnalyserCtx := false
  speechStartTime := 0
  lastSpeechTime := 0
  pendingAutoSends := []
  pendingRecStops := 0

/-- Energy threshold of the detector (use-voice.ts line 65: 0.015), in
thousandths. -/
def SPEECH_THRESHOLD : Nat := 15

/-- Continuous sub-threshold duration that latches speech end (line 66). -/
def SILENCE_DURATION_MS : Nat := 1200

/-- Minimum-speech-duration misfire threshold (line 67). -/
def MIN_SPEECH_DURATION_MS : Nat := 300

/-- Client-side timeout of the single-shot (REST) synthesis request
(use-voice.ts line 661: setTimeout(() => controller.abort(), 15000)). -/
def REST_CLIENT_TIMEOUT_MS : Nat := 15000

/-- Model of stopRecording (lines 118-127): stops an active recorder — which
later fires its asynchronous onstop continuation, counted by
`pendingRecStops` — and clears isRecordingRef. -/
def stopRecording (s : VoiceState) : VoiceState :=
  { s with isRecording := false
           pendingRecStops := s.pendingRecStops + (if s.isRecording then 1 else 0) }

/-- Model of startRecording's entry guard and effect (lines 175-228): a new
recorder is started only when a media stream exists and no recording is in
progress. -/
def startRecording (s : VoiceState) : VoiceState :=
  if !s.hasMediaStream || s.isRecording then s else { s with isRecording := true }

/-- Model of doAutoSend (lines 158-171) of variant A.  The guard is the JS
truthiness test `finalText && finalText.trim()`; note that it does NOT consult
hasSpeechRef (unlike variant B's doAutoSend).  On emission it clears the
transcript buffers and invokes onAutoSend with the trimmed text. -/
def doAutoSend (finalText : String) (s : VoiceState) : VoiceState × List Out :=
  if finalText = "" then (s, [])
  else if jsTrim finalText = "" then (s, [])
  else
    ({ s with accumulatedText := ""
              hasSpeech := false
              transcript := ""
              interimTranscript := ""
              userSpeaking := false
              audioLevel := 50 },
     [Out.autoSend (jsTrim finalText)])

/-- Model of stopListening (lines 242-277): clears the liveness flag and
timers (clearTimers touches only the three tracked timer refs, so a pending
800 ms auto-send timeout survives in `pendingAutoSends`), stops recording and
the energy monitor, releases the analyser context and the media stream, resets
the detector flags, flushes the trimmed accumulated text as a final auto-send,
and resets the observable listening state. -/
def stopListening (s : VoiceState) : VoiceState × List Out :=
  let s1 := stopRecording
    { s with isActive := false
             monitorArmed := false
             hasAnalyserCtx := false
             hasMediaStream := false
             isSpeechActive := false
             energyMonitorPaused := false }
  let finalText := jsTrim s.accumulatedText
  let s2 := { s1 with accumulatedText := ""
                      hasSpeech := false
                      isListening := false
                      userSpeaking := false
                      audioLevel := 0
                      interimTranscript := ""
                      vadReady := false }
  if finalText = "" then (s2, []) else (s2, [Out.autoSend finalText])

/-- Model of startListening (lines 347-402).  `micOk` is the outcome of the
getUserMedia / AudioContext acquisition.  A call while already active is a
no-op; otherwise buffers are reset, and on success the stream, analyser
context and energy monitor are armed, while on failure the liveness flag is
rolled back and the stream released. -/
def startListening (micOk : Bool) (s : VoiceState) : VoiceState × List Out :=
  if s.isActive then (s, [])
  else
    let s1 := { s with isActive := true
                       accumulatedText := ""
                       hasSpeech := false
                       isSpeechActive := false
                       energyMonitorPaused := false
                       transcript := ""
                       interimTranscript := ""
                       isListening := true
                       vadReady := false }
    if micOk then
      ({ s1 with hasMediaStream := true
                 hasAnalyserCtx := true
                 monitorArmed := true
                 vadReady := true }, [])
    else
      ({ s1 with isActive := false
                 isListening := false
                 hasMediaStream := false }, [])

/-- Model of one iteration of the energy-monitor loop inside
startEnergyMonitor (lines 279-345), with `now` the Date.now() timestamp and
`rms` the computed frame energy.  Mirrors the source exactly: the paused/
inactive early return, the audio-level update, the speech-start latch (which
starts a recording), and the silence-expiry decision comparing
`speechDuration = now - speechStartTime` — a quantity that includes the
trailing silence — against the minimum-speech filter. -/
def monitorFrame (now : Nat) (rms : Nat) (s : VoiceState) : VoiceState × List Out :=
  if !s.monitorArmed then (s, [])
  else if !s.isActive || s.energyMonitorPaused then (s, [])
  else
    let s0 := { s with audioLevel := min (rms * 5) 1000 }
    if SPEECH_THRESHOLD < rms then
      let s1 := { s0 with lastSpeechTime := now }
      if s1.isSpeechActive then (s1, [])
      else
        (startRecording
          { s1 with isSpeechActive := true
                    speechStartTime := now
                    userSpeaking := true
                    audioLevel := 700 }, [Out.speechStart])
    else if s0.isSpeechActive then
      let silenceDuration := now - s0.lastSpeechTime
      let speechDuration := now - s0.speechStartTime
      if SILENCE_DURATION_MS ≤ silenceDuration then
        if MIN_SPEECH_DURATION_MS ≤ speechDuration then
          (stopRecording
            { s0 with isSpeechActive := false
                      userSpeaking := false
                      audioLevel := 100 }, [Out.speechEnd])
        else
          (stopRecording
            { s0 with isSpeechActive := false
                      userSpeaking := false
                      audioLevel := 0 }, [Out.misfire])
      else (s0, [])
    else (s0, [])

/-- Model of the recorder.onstop continuation (lines 192-219) after the
`/api/stt` round trip resolved.  `tr = none` covers the empty-chunk early
return and an STT failure (sendAudioToSTT returning null); `some t` is the
received transcript, whose JS truthiness is tested before any state change.
On a truthy transcript the accumulation and hasSpeech are set, onResult is
invoked, and — when continuous mode and the liveness flag hold — an 800 ms
auto-send timeout carrying the transcript is scheduled. -/
def recComplete (cont : Bool) (tr : Option String) (s : VoiceState) :
    VoiceState × List Out :=
  if s.pendingRecStops = 0 then (s, [])
  else
    let s0 := { s with pendingRecStops := s.pendingRecStops - 1 }
    match tr with
    | none => (s0, [])
    | some t =>
      if t = "" then (s0, [])
      else
        let s1 := { s0 with accumulatedText := t, hasSpeech := true, transcript := t }
        if cont && s1.isActive then
          ({ s1 with pendingAutoSends := s1.pendingAutoSends ++ [t] }, [Out.result t])
        else (s1, [Out.result t])

/-- Model of one scheduled 800 ms auto-send timeout firing (line 212):
it invokes doAutoSend with the transcript captured at scheduling time,
unconditionally — the closure checks neither isActiveRef nor hasSpeechRef. -/
def pendingFire (s : VoiceState) : VoiceState × List Out :=
  match s.pendingAutoSends with
  | [] => (s, [])
  | t :: rest => doAutoSend t { s with pendingAutoSends := rest }

/-- Model of prepareForSpeaking (lines 425-431): pauses the energy monitor,
clears the speech latch, stops a recording and clears the tracked timers — it
does NOT touch accumulatedText or hasSpeech. -/
def prepareForSpeaking (s : VoiceState) : VoiceState :=
  stopRecording { s with energyMonitorPaused := true, isSpeechActive := false }

/-- Model of resumeAfterSpeaking (lines 433-447): clears isSpeaking, and when
the session is still active un-pauses the monitor and clears the latch;
in both branches it invokes onSpeakEnd. -/
def resumeAfterSpeaking (s : VoiceState) : VoiceState × List Out :=
  let s0 := { s with isSpeaking := false }
  if !s0.isActive then (s0, [Out.speakEnd])
  else ({ s0 with energyMonitorPaused := false, isSpeechActive := false }, [Out.speakEnd])

/-- Model of the synchronous prefix of speak (lines 787-806): the empty-text
early return (which invokes onSpeakEnd directly and touches no state), the
speakingGuard no-op return, and the guard-set / prepareForSpeaking /
setIsSpeaking(true) sequence that starts the tiered playback.  The tier
chain's completion is a separate event (`speakResolve`). -/
def speak (txt : Option String) (s : VoiceState) : VoiceState × List Out :=
  let trimmedText := jsTrim (txt.getD "")
  if trimmedText = "" then (s, [Out.speakEnd])
  else if s.speakingGuard then (s, [])
  else
    let s1 := prepareForSpeaking { s with speakingGuard := true }
    ({ s1 with isSpeaking := true, speakInFlight := true }, [Out.playStart])

/-- Model of a speak() continuation completing (lines 807-835): whichever tier
settled the chain, the continuation clears the guard and runs
resumeAfterSpeaking.  The per-tier multiplicity of this finalizer is analysed
separately by `speakResumeRuns`. -/
def speakResolve (s : VoiceState) : VoiceState × List Out :=
  if !s.speakInFlight then (s, [])
  else resumeAfterSpeaking { s with speakInFlight := false, speakingGuard := false }

/-- Model of stopSpeaking (lines 837-853): clears the guard, aborts/cancels
whichever playback is active, and unconditionally runs resumeAfterSpeaking.
A speak() continuation still in flight is not cancelled (its own resolution
remains pending). -/
def stopSpeaking (s : VoiceState) : VoiceState × List Out :=
  resumeAfterSpeaking { s with speakingGuard := false }

/-- Event alphabet of the variant-A session: one constructor per synchronous
callback dispatch of the source. -/
inductive Ev : Type
  | startL (micOk : Bool)
  | stopL
  | frame (now : Nat) (rms : Nat)
  | recDone (tr : Option String)
  | pendingFire
  | speakCall (txt : Option String)
  | speakResolve
  | stopSpeak
  deriving Repr

/-- Single-step dispatch: runs the callback selected by the event.  `cont` is
the hook's `continuous` option (default true). -/
def step (cont : Bool) (ev : Ev) (s : VoiceState) : VoiceState × List Out :=
  match ev with
  | Ev.startL micOk => startListening micOk s
  | Ev.stopL => stopListening s
  | Ev.frame now rms => monitorFrame now rms s
  | Ev.recDone tr => recComplete cont tr s
  | Ev.pendingFire => pendingFire s
  | Ev.speakCall txt => speak txt s
  | Ev.speakResolve => speakResolve s
  | Ev.stopSpeak => stopSpeaking s

/-- Folds a list of events over a state, discarding outputs. -/
def runList (cont : Bool) (evs : List Ev) (s : VoiceState) : VoiceState :=
  evs.foldl (fun st e => (step cont e st).1) s

/-- States reachable from the initial state by some sequence of events. -/
inductive Reachable (cont : Bool) : VoiceState → Prop
  | init : Reachable cont initState
  | next (s : VoiceState) (ev : Ev) :
      Reachable cont s → Reachable cont (step cont ev s).1

/-- Collaborator-outcome oracle for one run of speakWithSarvamStream
(lines 483-654): whether the fetch threw an AbortError or another exception,
whether the response was 2xx, had a body, whether the SSE loop saw a server
error event, whether any audio chunks arrived, whether Web-Audio decoding of
the combined chunks succeeded, and whether the fallback HTMLAudioElement
played the blob to its `ended` event. -/
structure StreamEnv : Type where
  aborted : Bool
  netError : Bool
  httpOk : Bool
  hasBody : Bool
  serverErrorEvent : Bool
  gotChunks : Bool
  decodeOk : Bool
  elementOk : Bool
  deriving Repr, DecidableEq

/-- Model of speakWithSarvamStream's result (lines 483-654): first component
is the returned success boolean, second records whether the in-tier
HTMLAudioElement fallback was used.  The branch order mirrors the source: an
intentional abort returns true without falling back; any other exception,
non-2xx status, missing body, server error event or empty chunk accumulation
returns false; a successful decode plays through Web Audio and resolves true
on `ended`; a decode failure falls back in-tier to an HTMLAudioElement whose
outcome decides the tier. -/
def speakWithSarvamStream (e : StreamEnv) : Bool × Bool :=
  if e.aborted then (true, false)
  else if e.netError then (false, false)
  else if !e.httpOk then (false, false)
  else if !e.hasBody then (false, false)
  else if e.serverErrorEvent then (false, false)
  else if !e.gotChunks then (false, false)
  else if e.decodeOk then (true, false)
  else (e.elementOk, true)

/-- Condition under which speakWithSarvamStream reaches its decode step. -/
def streamReachedDecode (e : StreamEnv) : Bool :=
  !e.aborted && !e.netError && e.httpOk && e.hasBody && !e.serverErrorEvent && e.gotChunks

/-- Collaborator-outcome oracle for one run of speakWithSarvamRest
(lines 657-742): whether the fetch threw (including the 15 s client-timeout
abort), whether the response was 2xx with a non-empty audio buffer, whether
Web-Audio decoding succeeded, whether the playing source was stopped by
`pause()` before completing (resolving false first under the `resolved`
flag), and the HTMLAudioElement fallback outcome. -/
structure RestEnv : Type where
  netErrorOrTimeout : Bool
  httpOk : Bool
  bodyNonEmpty : Bool
  decodeOk : Bool
  stoppedByPause : Bool
  elementOk : Bool
  deriving Repr, DecidableEq

/-- Model of speakWithSarvamRest's result (lines 657-742), with the same
(success, usedElementFallback) shape as the streaming tier. -/
def speakWithSarvamRest (e : RestEnv) : Bool × Bool :=
  if e.netErrorOrTimeout then (false, false)
  else if !e.httpOk then (false, false)
  else if !e.bodyNonEmpty then (false, false)
  else if e.decodeOk then (if e.stoppedByPause then (false, false) else (true, false))
  else (e.elementOk, true)

/-- Condition under which speakWithSarvamRest reaches its decode step. -/
def restReachedDecode (e : RestEnv) : Bool :=
  !e.netErrorOrTimeout && e.httpOk && e.bodyNonEmpty

/-- Platform-synthesis oracle for one run of speakWithBrowser (lines 744-785):
whether window.speechSynthesis exists, whether the utterance's `end` event
fires and after how many ms, whether its `error` event fires, and what
speechSynthesis.speaking / .pending report at the 500 ms watchdog check. -/
structure BrowserSynthEnv : Type where
  synthAvailable : Bool
  endFires : Bool
  endDelayMs : Nat
  errorFires : Bool
  speakingAtCheck : Bool
  pendingAtCheck : Bool
  deriving Repr, DecidableEq

/-- Number of invocations of speakWithBrowser's `onDone` callback
(lines 744-785).  Without speechSynthesis a single delayed onDone is
scheduled.  Otherwise each of the three completion paths that fires schedules
exactly one onDone call — the `end` handler (immediately, or after 3 s when
the utterance completed in under 200 ms), the `error` handler (after 2 s), and
the 500 ms watchdog when synthesis is neither speaking nor pending (after
3 s).  Nothing deduplicates these calls (there is no `resolved` flag here,
unlike speakWithSarvamRest). -/
def speakWithBrowserDoneCount (e : BrowserSynthEnv) : Nat :=
  if !e.synthAvailable then 1
  else
    (if e.endFires then (if e.endDelayMs < 200 then 1 else 1) else 0) +
    (if e.errorFires then 1 else 0) +
    (if !e.speakingAtCheck && !e.pendingAtCheck then 1 else 0)

/-- Tier attempts of one guard-passing speak() call (lines 807-827), in order:
tier 2 (single-shot REST synthesis) runs only after tier 1 (streaming) settled
false, and tier 3 (platform synthesis) only after tier 2 also settled false. -/
def speakTierAttempts (se : StreamEnv) (re : RestEnv) : List Nat :=
  if (speakWithSarvamStream se).1 then [1]
  else if (speakWithSarvamRest re).1 then [1, 2]
  else [1, 2, 3]

/-- Number of times one speak() call runs resumeAfterSpeaking (lines 787-835).
The empty-text early return and the speakingGuard no-op never reach the tier
chain; a streaming or REST tier success runs the finalizer exactly once before
returning; otherwise the finalizer is speakWithBrowser's onDone callback and
runs once per onDone invocation. -/
def speakResumeRuns (txt : Option String) (guard : Bool)
    (se : StreamEnv) (re : RestEnv) (be : BrowserSynthEnv) : Nat :=
  if jsTrim (txt.getD "") = "" then 0
  else if guard then 0
  else if (speakWithSarvamStream se).1 then 1
  else if (speakWithSarvamRest re).1 then 1
  else speakWithBrowserDoneCount be

end VarA

namespace VarB

/-- Recognizer-path state of variant B (lines 925-1373): the refs and React
state touched by the continuous recognizer's onresult handler. -/
structure BState : Type where
  isActive : Bool
  accumulatedText : String
  hasSpeech : Bool
  transcript : String
  interimTranscript : String
  userSpeaking : Bool
  audioLevel : Nat
  deriving Repr, DecidableEq

/-- Listening state at the start of a turn: active with empty buffers. -/
def initB : BState where
  isActive := true
  accumulatedText := ""
  hasSpeech := false
  transcript := ""
  interimTranscript := ""
  userSpeaking := false
  audioLevel := 0

/-- Concatenation of the fragments marked final in one cumulative
`event.results` list, as computed by the `allFinal` loop of onresult
(lines 1072-1082). -/
def concatFinal (results : List (String × Bool)) : String :=
  String.join (results.filterMap fun r => if r.2 then some r.1 else none)

/-- Concatenation of the interim fragments of one cumulative `event.results`
list (the `currentInterim` loop of onresult). -/
def concatInterim (results : List (String × Bool)) : String :=
  String.join (results.filterMap fun r => if r.2 then none else some r.1)

/-- Model of variant B's recognition.onresult handler (lines 1069-1102),
applied to one cumulative `event.results` snapshot.  When the snapshot holds
any final fragment, accumulatedTextRef is ASSIGNED the concatenation of the
snapshot's finals (the recognizer's results are cumulative within one
recognizer session, so within a session this assignment preserves earlier
finals — but a restarted recognizer starts from an empty result list). -/
def onresult (results : List (String × Bool)) (s : BState) : BState :=
  if !s.isActive then s
  else
    let allFinal := concatFinal results
    let currentInterim := concatInterim results
    let s1 :=
      if allFinal = "" then s
      else { s with accumulatedText := allFinal, hasSpeech := true, transcript := allFinal }
    if currentInterim = "" then
      if s1.hasSpeech then { s1 with interimTranscript := "" } else s1
    else
      { s1 with hasSpeech := true
                interimTranscript := currentInterim
                userSpeaking := true
                audioLevel := 700 }

/-- Runs the onresult events of one recognizer session: `snaps` is the
sequence of cumulative `event.results` snapshots the session delivered. -/
def runSession (snaps : List (List (String × Bool))) (s : BState) : BState :=
  snaps.foldl (fun st rs => onresult rs st) s

/-- Runs a whole turn across recognizer restarts: each element is one
recognizer session's snapshot sequence (the restart in recognition.onend,
lines 1109-1124, creates a fresh recognizer whose result list starts empty). -/
def runSessions (sessions : List (List (List (String × Bool)))) (s : BState) : BState :=
  sessions.foldl (fun st sn => runSession sn st) s

/-- Emission payload of variant B's doAutoSend (lines 1023-1039): the trimmed
accumulation, sent only when it is truthy and hasSpeechRef is set. -/
def doAutoSendEmit (s : BState) : Option String :=
  if jsTrim s.accumulatedText = "" then none
  else if s.hasSpeech then some (jsTrim s.accumulatedText)
  else none

/-- Concatenation of all fragments marked final over a whole turn: per
session the finals of its last cumulative snapshot (each result slot of a
session appears, finalized at most once, in every later snapshot). -/
def allFinalsOfTurn (sessions : List (List (List (String × Bool)))) : String :=
  String.join (sessions.map fun sn => concatFinal (sn.getLast?.getD []))

end VarB

namespace VarA

/-- Trace state: a fresh session after a successful startListening. -/
def sA1 : VoiceState := runList true [Ev.startL true] initState

/-- Trace state: a frame with RMS 0.1 (100 thousandths) at t = 0 latched
speech start and began recording. -/
def sA2 : VoiceState := runList true [Ev.frame 0 100] sA1

/-- Trace state: a silent frame at t = 1500 ms latched speech end (1500 ms of
silence since the last loud frame) and stopped the recording. -/
def sA3 : VoiceState := runList true [Ev.frame 1500 0] sA2

/-- Trace state: the recorder's onstop continuation returned transcript
"hello"; the accumulation and hasSpeech are set and an 800 ms auto-send
timeout carrying "hello" is now pending. -/
def sA4 : VoiceState := runList true [Ev.recDone (some "hello")] sA3

/-- Trace state for C1: stopListening was called during the 800 ms auto-send
delay; it flushed "hello" and cleared the buffers, but the scheduled timeout
is still pending. -/
def c1s5 : VoiceState := runList true [Ev.stopL] sA4

/-- Trace state for C9: speak("ok") was called during the 800 ms auto-send
delay; prepareForSpeaking paused the detector but preserved the accumulated
text, so the session is Speaking with accumulatedText = "hello". -/
def c9state : VoiceState := runList true [Ev.speakCall (some "ok")] sA4

/-- Trace state for C6: speech frames at t = 0 and t = 100 ms (RMS 0.1), so
the detected speech segment lasted 100 ms; the session is still latched. -/
def c6state : VoiceState :=
  runList true [Ev.startL true, Ev.frame 0 100, Ev.frame 100 100] initState

/-- Spec-level session phases. -/
inductive Phase : Type
  | Idle
  | Listening
  | UserSpeaking
  | Transcribing
  | Thinking
  | Speaking
  deriving Repr, DecidableEq

/-- Modelled from the spec: the code keeps no explicit phase variable, so the
spec's phase is derived from the observable session flags — Speaking while
isSpeaking (playback entered via speak()), Idle when the liveness flag is
down, UserSpeaking while the detector has speech latched, Transcribing while
a record-and-submit round trip is outstanding, and Listening otherwise.  (The
Thinking phase belongs to the surrounding application and never arises from
the voice hook's own flags.) -/
def phase (s : VoiceState) : Phase :=
  if s.isSpeaking then Phase.Speaking
  else if !s.isActive then Phase.Idle
  else if s.isSpeechActive then Phase.UserSpeaking
  else if s.pendingRecStops ≠ 0 then Phase.Transcribing
  else Phase.Listening

/-- State with the speaking guard set, used to exercise the speak() guard. -/
def guardedState : VoiceState := { initState with speakingGuard := true }

/-- Streaming-tier oracle of the C2 scenario: the fetch throws a network
error, so tier 1 fails. -/
def c2streamEnv : StreamEnv where
  aborted := false
  netError := true
  httpOk := false
  hasBody := false
  serverErrorEvent := false
  gotChunks := false
  decodeOk := false
  elementOk := false

/-- REST-tier oracle of the C2 scenario: the request also fails, so tier 2
fails and the platform tier is reached. -/
def c2restEnv : RestEnv where
  netErrorOrTimeout := true
  httpOk := false
  bodyNonEmpty := false
  decodeOk := false
  stoppedByPause := false
  elementOk := false

/-- Platform-synthesis oracle of the C2 scenario: no voice matches, so the
utterance's end event fires instantly (under 200 ms) and at the 500 ms check
speechSynthesis is neither speaking nor pending — both completion paths
schedule onDone. -/
def c2browserEnv : BrowserSynthEnv where
  synthAvailable := true
  endFires := true
  endDelayMs := 50
  errorFires := false
  speakingAtCheck := false
  pendingAtCheck := false

/-- Streaming-tier oracle in which tier 1 succeeds end to end. -/
def okStreamEnv : StreamEnv where
  aborted := false
  netError := false
  httpOk := true
  hasBody := true
  serverErrorEvent := false
  gotChunks := true
  decodeOk := true
  elementOk := false

/-- Streaming-tier oracle reaching the decode step with a decode failure,
whose element fallback succeeds. -/
def decodeFailStreamEnv : StreamEnv where
  aborted := false
  netError := false
  httpOk := true
  hasBody := true
  serverErrorEvent := false
  gotChunks := true
  decodeOk := false
  elementOk := true

/-- REST-tier oracle reaching the decode step with a decode failure, whose
element fallback succeeds. -/
def decodeFailRestEnv : RestEnv where
  netErrorOrTimeout := false
  httpOk := true
  bodyNonEmpty := true
  decodeOk := false
  stoppedByPause := false
  elementOk := true

end VarA

namespace VarB

/-- Turn of the C7 counterexample: the first recognizer session finalizes
"hello " and then terminates; the restarted session finalizes "world". -/
def c7sessions : List (List (List (String × Bool))) :=
  [[[("hello ", true)]], [[("world", true)]]]

end VarB


/-!
Theorems.  Helper lemmas come first; each claim of the specification then
gets one theorem (plus, where applicable, a counterexample and a witness).
-/

/-- Applying onresult never changes the liveness flag. -/
theorem VarB.onresult_isActive (results : List (String × Bool)) (s : VarB.BState) :
    (VarB.onresult results s).isActive = s.isActive := by
  unfold VarB.onresult
  split
  · rfl
  · dsimp only
    split <;> split <;> (try split) <;> rfl

/-- Running a recognizer session never changes the liveness flag. -/
theorem VarB.runSession_isActive (snaps : List (List (String × Bool))) (s : VarB.BState) :
    (VarB.runSession snaps s).isActive = s.isActive := by
  induction snaps generalizing s with
  | nil => rfl
  | cons rs rest ih =>
    calc (VarB.runSession (rs :: rest) s).isActive
        = (VarB.runSession rest (VarB.onresult rs s)).isActive := rfl
      _ = (VarB.onresult rs s).isActive := ih (VarB.onresult rs s)
      _ = s.isActive := VarB.onresult_isActive rs s

/-- Reachability of the common trace prefix: start, speech at t = 0, silence
expiry at t = 1500 ms, transcript "hello" received. -/
theorem sA4_reachable : VarA.Reachable true VarA.sA4 :=
  VarA.Reachable.next VarA.sA3 (VarA.Ev.recDone (some "hello"))
    (VarA.Reachable.next VarA.sA2 (VarA.Ev.frame 1500 0)
      (VarA.Reachable.next VarA.sA1 (VarA.Ev.frame 0 100)
        (VarA.Reachable.next VarA.initState (VarA.Ev.startL true)
          VarA.Reachable.init)))

/-- C3: stopListening() from any state clears the liveness and listening
flags, releases the capture stream and the analyser context, clears the
accumulation, and — within the call — emits exactly one auto-send carrying the
trimmed buffered transcript when that is non-empty, and none otherwise. -/
theorem claim_C3_stopListening_teardown (cont : Bool) (s : VarA.VoiceState) :
    (VarA.step cont VarA.Ev.stopL s).1.isActive = false ∧
    (VarA.step cont VarA.Ev.stopL s).1.isListening = false ∧
    (VarA.step cont VarA.Ev.stopL s).1.hasMediaStream = false ∧
    (VarA.step cont VarA.Ev.stopL s).1.hasAnalyserCtx = false ∧
    (VarA.step cont VarA.Ev.stopL s).1.accumulatedText = "" ∧
    (VarA.step cont VarA.Ev.stopL s).2 =
      (if jsTrim s.accumulatedText = "" then []
       else [VarA.Out.autoSend (jsTrim s.accumulatedText)]) := by
  unfold VarA.step VarA.stopListening VarA.stopRecording
  by_cases h : jsTrim s.accumulatedText = "" <;> simp [h]

/-- C4: a speak() call made while speakingGuard is already set leaves the
whole session state unchanged and starts no playback. -/
theorem claim_C4_speak_guard_noop (cont : Bool) (txt : Option String)
    (s : VarA.VoiceState) (h : s.speakingGuard = true) :
    (VarA.step cont (VarA.Ev.speakCall txt) s).1 = s ∧
    VarA.Out.playStart ∉ (VarA.step cont (VarA.Ev.speakCall txt) s).2 := by
  unfold VarA.step VarA.speak
  by_cases he : jsTrim (txt.getD "") = "" <;> simp [he, h]

/-- Witness for C4 at a concrete guarded state and non-empty text. -/
theorem claim_C4_witness :
    (VarA.step true (VarA.Ev.speakCall (some "hi")) VarA.guardedState).1
        = VarA.guardedState ∧
    VarA.Out.playStart ∉
      (VarA.step true (VarA.Ev.speakCall (some "hi")) VarA.guardedState).2 :=
  claim_C4_speak_guard_noop true (some "hi") VarA.guardedState rfl

/-- C10: a speak() call whose text is null, empty or whitespace-only changes
no state — in particular it neither sets the guard nor pauses the detector —
and invokes onSpeakEnd exactly once, starting no playback. -/
theorem claim_C10_empty_speak (cont : Bool) (txt : Option String)
    (s : VarA.VoiceState) (h : jsTrim (txt.getD "") = "") :
    VarA.step cont (VarA.Ev.speakCall txt) s = (s, [VarA.Out.speakEnd]) := by
  unfold VarA.step VarA.speak
  simp [h]

/-- Witness for C10 at whitespace-only text and the initial state. -/
theorem claim_C10_witness :
    VarA.step true (VarA.Ev.speakCall (some "   ")) VarA.initState
      = (VarA.initState, [VarA.Out.speakEnd]) :=
  claim_C10_empty_speak true (some "   ") VarA.initState (by decide)

/-- C8: startListening() while the session is already active is a no-op (no
state change, no event, hence no second capture stream), and stopListening()
is idempotent — a second consecutive call changes nothing and emits no
additional auto-send. -/
theorem claim_C8_reentrancy (cont ok : Bool) (s : VarA.VoiceState) :
    (s.isActive = true → VarA.step cont (VarA.Ev.startL ok) s = (s, [])) ∧
    VarA.step cont VarA.Ev.stopL (VarA.step cont VarA.Ev.stopL s).1
      = ((VarA.step cont VarA.Ev.stopL s).1, []) := by
  constructor
  · intro h
    unfold VarA.step VarA.startListening
    simp [h]
  · unfold VarA.step VarA.stopListening VarA.stopRecording
    by_cases h : jsTrim s.accumulatedText = "" <;> simp [h] <;> rfl

/-- Witness for C8 at a concrete active state. -/
theorem claim_C8_witness :
    VarA.step true (VarA.Ev.startL true) VarA.sA1 = (VarA.sA1, []) ∧
    VarA.step true VarA.Ev.stopL (VarA.step true VarA.Ev.stopL VarA.sA1).1
      = ((VarA.step true VarA.Ev.stopL VarA.sA1).1, []) :=
  ⟨(claim_C8_reentrancy true true VarA.sA1).1 (by decide),
   (claim_C8_reentrancy true true VarA.sA1).2⟩

set_option maxHeartbeats 1600000 in
/-- C5: for every guard-passing speak() the tiers run in strict order — tier 2
is attempted iff tier 1 reported failure and tier 3 iff tiers 1 and 2 both
reported failure; a decode failure inside tier 1 or tier 2 first falls back
in-tier to the simpler playback element, whose outcome then decides the tier;
and the single-shot tier's client-side timeout is 15 seconds. -/
theorem claim_C5_tier_order (se : VarA.StreamEnv) (re : VarA.RestEnv) :
    (1 ∈ VarA.speakTierAttempts se re) ∧
    ((2 ∈ VarA.speakTierAttempts se re) ↔ (VarA.speakWithSarvamStream se).1 = false) ∧
    ((3 ∈ VarA.speakTierAttempts se re) ↔
      (VarA.speakWithSarvamStream se).1 = false ∧
      (VarA.speakWithSarvamRest re).1 = false) ∧
    ((VarA.speakWithSarvamStream se).2 = true ↔
      VarA.streamReachedDecode se = true ∧ se.decodeOk = false) ∧
    (VarA.streamReachedDecode se = true → se.decodeOk = false →
      (VarA.speakWithSarvamStream se).1 = se.elementOk) ∧
    ((VarA.speakWithSarvamRest re).2 = true ↔
      VarA.restReachedDecode re = true ∧ re.decodeOk = false) ∧
    (VarA.restReachedDecode re = true → re.decodeOk = false →
      (VarA.speakWithSarvamRest re).1 = re.elementOk) ∧
    VarA.REST_CLIENT_TIMEOUT_MS = 15000 := by
  obtain ⟨a, b, c, d, e, f, g, h⟩ := se
  obtain ⟨p, q, r, t, u, v⟩ := re
  revert a b c d e f g h p q r t u v
  decide

/-- Witness for C5: the in-tier element fallback decides each remote tier at
a concrete decode-failure environment. -/
theorem claim_C5_witness :
    (VarA.speakWithSarvamStream VarA.decodeFailStreamEnv).1
        = VarA.decodeFailStreamEnv.elementOk ∧
    (VarA.speakWithSarvamRest VarA.decodeFailRestEnv).1
        = VarA.decodeFailRestEnv.elementOk :=
  ⟨(claim_C5_tier_order VarA.decodeFailStreamEnv VarA.decodeFailRestEnv).2.2.2.2.1
     (by decide) (by decide),
   (claim_C5_tier_order VarA.decodeFailStreamEnv VarA.decodeFailRestEnv).2.2.2.2.2.2.1
     (by decide) (by decide)⟩

/-- Counterexample to C2 as stated: in the spec's own scenario — streaming
tier fails with a network error, the single-shot tier also fails, and the
platform has no matching voice so the utterance ends instantly — BOTH the
instant-completion path and the 500 ms idle watchdog of speakWithBrowser
schedule the completion callback, so resumeAfterSpeaking (and hence
onSpeakEnd) runs twice for this single guard-passing speak() call, not
exactly once. -/
theorem claim_C2_counterexample :
    (VarA.speakWithSarvamStream VarA.c2streamEnv).1 = false ∧
    (VarA.speakWithSarvamRest VarA.c2restEnv).1 = false ∧
    VarA.speakResumeRuns (some "ready") false
      VarA.c2streamEnv VarA.c2restEnv VarA.c2browserEnv = 2 := by
  decide

/-- C2 (amended): per guard-passing speak() call, resumeAfterSpeaking runs
exactly once whenever the streaming tier or the single-shot tier succeeds, and
otherwise once per platform-synthesis completion callback that fires (exactly
once when speechSynthesis is unavailable); per stopSpeaking() call it runs
exactly once, invoking onSpeakEnd exactly once. -/
theorem claim_C2_amended (txt : Option String) (g : Bool)
    (se : VarA.StreamEnv) (re : VarA.RestEnv) (be : VarA.BrowserSynthEnv)
    (cont : Bool) (s : VarA.VoiceState)
    (hne : jsTrim (txt.getD "") ≠ "") (hg : g = false) :
    ((VarA.speakWithSarvamStream se).1 = true →
      VarA.speakResumeRuns txt g se re be = 1) ∧
    ((VarA.speakWithSarvamStream se).1 = false →
      (VarA.speakWithSarvamRest re).1 = true →
      VarA.speakResumeRuns txt g se re be = 1) ∧
    ((VarA.speakWithSarvamStream se).1 = false →
      (VarA.speakWithSarvamRest re).1 = false →
      VarA.speakResumeRuns txt g se re be = VarA.speakWithBrowserDoneCount be) ∧
    (be.synthAvailable = false → VarA.speakWithBrowserDoneCount be = 1) ∧
    (VarA.step cont VarA.Ev.stopSpeak s).2 = [VarA.Out.speakEnd] := by
  subst hg
  refine ⟨?_, ?_, ?_, ?_, ?_⟩
  · intro h1
    simp [VarA.speakResumeRuns, hne, h1]
  · intro h1 h2
    simp [VarA.speakResumeRuns, hne, h1, h2]
  · intro h1 h2
    simp [VarA.speakResumeRuns, hne, h1, h2]
  · intro h
    simp [VarA.speakWithBrowserDoneCount, h]
  · unfold VarA.step VarA.stopSpeaking VarA.resumeAfterSpeaking
    by_cases h : s.isActive <;> simp [h]

/-- Witness for C2 (amended) at concrete inputs: a successful streaming tier
gives exactly one finalizer run, and stopSpeaking at the initial state emits
exactly one onSpeakEnd. -/
theorem claim_C2_amended_witness :
    VarA.speakResumeRuns (some "ready") false
      VarA.okStreamEnv VarA.c2restEnv VarA.c2browserEnv = 1 ∧
    (VarA.step true VarA.Ev.stopSpeak VarA.initState).2 = [VarA.Out.speakEnd] :=
  ⟨(claim_C2_amended (some "ready") false VarA.okStreamEnv VarA.c2restEnv
      VarA.c2browserEnv true VarA.initState (by decide) rfl).1 (by decide),
   (claim_C2_amended (some "ready") false VarA.okStreamEnv VarA.c2restEnv
      VarA.c2browserEnv true VarA.initState (by decide) rfl).2.2.2.2⟩

/-- C1 (code bug): the record-completion auto-send timeout is stored in no
ref, so stopListening cannot cancel it.  In the reachable trace — speech,
silence expiry, transcript "hello" received, then stopListening during the
800 ms delay — the flush has already emitted "hello" and cleared the buffers,
yet when the stale timeout fires it emits "hello" a second time from a state
whose accumulation is empty and whose hasSpeech flag is down, violating the
claimed emission precondition. -/
theorem claim_C1_stale_timer_emission :
    VarA.Reachable true VarA.c1s5 ∧
    VarA.c1s5.accumulatedText = "" ∧
    VarA.c1s5.hasSpeech = false ∧
    VarA.c1s5.isActive = false ∧
    (VarA.step true VarA.Ev.pendingFire VarA.c1s5).2 = [VarA.Out.autoSend "hello"] :=
  ⟨VarA.Reachable.next VarA.sA4 VarA.Ev.stopL sA4_reachable,
   by decide, by decide, by decide, by decide⟩

/-- C6 (code bug): at the silence-expiry decision the code compares
`speechDuration = now - speechStartTime`, a quantity that includes the
trailing silence window, so it is always at least SILENCE_DURATION_MS = 1200
≥ MIN_SPEECH_DURATION_MS = 300 and the misfire branch is unreachable.  In the
reachable trace below the detected speech segment (loud frames from t = 0 to
t = 100 ms) lasted 100 ms < 300 ms, yet the decision frame at t = 1300 ms
emits speechEnd — stopping the recording for submission — rather than the
misfire the claim requires. -/
theorem claim_C6_dead_misfire :
    VarA.Reachable true VarA.c6state ∧
    VarA.c6state.isSpeechActive = true ∧
    VarA.c6state.lastSpeechTime - VarA.c6state.speechStartTime = 100 ∧
    VarA.c6state.lastSpeechTime - VarA.c6state.speechStartTime
      < VarA.MIN_SPEECH_DURATION_MS ∧
    1300 - VarA.c6state.lastSpeechTime = VarA.SILENCE_DURATION_MS ∧
    (VarA.step true (VarA.Ev.frame 1300 0) VarA.c6state).2 = [VarA.Out.speechEnd] :=
  ⟨VarA.Reachable.next VarA.sA2 (VarA.Ev.frame 100 100)
     (VarA.Reachable.next VarA.sA1 (VarA.Ev.frame 0 100)
       (VarA.Reachable.next VarA.initState (VarA.Ev.startL true)
         VarA.Reachable.init)),
   by decide, by decide, by decide, by decide, by decide⟩

/-- Counterexample to C7 as stated: the first recognizer session finalizes
"hello " and terminates; the restarted session's result list starts empty, so
its final "world" overwrites the accumulation, and the auto-send emits
"world" instead of the concatenation "hello world" of all finals of the
turn. -/
theorem claim_C7_counterexample :
    VarB.doAutoSendEmit (VarB.runSessions VarB.c7sessions VarB.initB) = some "world" ∧
    jsTrim (VarB.allFinalsOfTurn VarB.c7sessions) = "hello world" ∧
    ("world" : String) ≠ "hello world" := by
  refine ⟨by decide, by decide, by decide⟩

/-- C7 (amended): within a single recognizer session the accumulation is
correct — after any onresult whose cumulative result list contains a final
fragment, accumulatedText equals the concatenation of the finals of that
cumulative list (which, the recognizer's results being cumulative, is the
concatenation of all fragments finalized during the session) — but this holds
only per session: a restart resets the recognizer's result list, so finals
delivered after a restart overwrite text accumulated before it. -/
theorem claim_C7_amended (s : VarB.BState) (snaps : List (List (String × Bool)))
    (rs : List (String × Bool))
    (hact : s.isActive = true) (hfin : VarB.concatFinal rs ≠ "") :
    (VarB.runSession (snaps ++ [rs]) s).accumulatedText = VarB.concatFinal rs := by
  have hfold : VarB.runSession (snaps ++ [rs]) s
      = VarB.onresult rs (VarB.runSession snaps s) := by
    unfold VarB.runSession
    rw [List.foldl_append]
    rfl
  have hact2 : (VarB.runSession snaps s).isActive = true := by
    rw [VarB.runSession_isActive]
    exact hact
  rw [hfold]
  unfold VarB.onresult
  simp only [hact2, Bool.not_true, Bool.false_eq_true, if_false, hfin, if_neg]
  by_cases hi : VarB.concatInterim rs = "" <;> simp [hi]

/-- Witness for C7 (amended): a session delivering an interim snapshot and
then a final snapshot accumulates exactly the session's final fragment. -/
theorem claim_C7_amended_witness :
    (VarB.runSession ([[("hi", false)]] ++ [[("hi", true)]]) VarB.initB).accumulatedText
      = VarB.concatFinal [("hi", true)] :=
  claim_C7_amended VarB.initB [[("hi", false)]] [("hi", true)] rfl (by decide)

/-- Every event preserves the invariant that a non-empty accumulation implies
the hasSpeech flag: the two are set together by the onstop continuation and
cleared together by emission, startListening and stopListening, and no other
event touches either. -/
theorem step_preserves_speech_flag (cont : Bool) (ev : VarA.Ev) (s : VarA.VoiceState)
    (ih : s.accumulatedText ≠ "" → s.hasSpeech = true) :
    (VarA.step cont ev s).1.accumulatedText ≠ "" →
    (VarA.step cont ev s).1.hasSpeech = true := by
  cases ev with
  | startL micOk =>
    unfold VarA.step VarA.startListening
    (try dsimp only)
    split_ifs <;> simp_all
  | stopL =>
    unfold VarA.step VarA.stopListening VarA.stopRecording
    (try dsimp only)
    split_ifs <;> simp_all
  | frame now rms =>
    unfold VarA.step VarA.monitorFrame VarA.startRecording VarA.stopRecording
    (try dsimp only)
    split_ifs <;> simp_all
  | recDone tr =>
    unfold VarA.step VarA.recComplete
    cases tr <;> (try dsimp only) <;> split_ifs <;> simp_all
  | pendingFire =>
    unfold VarA.step VarA.pendingFire VarA.doAutoSend
    cases h : s.pendingAutoSends with
    | nil => simp_all
    | cons t rest =>
      simp only [h]
      split_ifs <;> simp_all
  | speakCall txt =>
    unfold VarA.step VarA.speak VarA.prepareForSpeaking VarA.stopRecording
    (try dsimp only)
    split_ifs <;> simp_all
  | speakResolve =>
    unfold VarA.step VarA.speakResolve VarA.resumeAfterSpeaking
    (try dsimp only)
    split_ifs <;> simp_all
  | stopSpeak =>
    unfold VarA.step VarA.stopSpeaking VarA.resumeAfterSpeaking
    (try dsimp only)
    split_ifs <;> simp_all

/-- Counterexample to C9 as stated: in the reachable trace where a transcript
"hello" has been received and speak("ok") is then called during the 800 ms
auto-send delay, prepareForSpeaking deliberately preserves the accumulation,
so the session is in phase Speaking while accumulatedText = "hello" is
non-empty — outside the claimed {Listening, UserSpeaking, Transcribing}. -/
theorem claim_C9_counterexample :
    VarA.Reachable true VarA.c9state ∧
    VarA.c9state.accumulatedText = "hello" ∧
    VarA.phase VarA.c9state = VarA.Phase.Speaking :=
  ⟨VarA.Reachable.next VarA.sA4 (VarA.Ev.speakCall (some "ok")) sA4_reachable,
   by decide, by decide⟩

/-- C9 (amended): in every reachable session state a non-empty
accumulatedText implies at least one confirmed speech fragment (hasSpeech);
the phase restriction of the original claim does not hold because speak()
preserves already-accumulated text, so the accumulation may be non-empty
during Speaking. -/
theorem claim_C9_amended (cont : Bool) (s : VarA.VoiceState)
    (h : VarA.Reachable cont s) :
    s.accumulatedText ≠ "" → s.hasSpeech = true := by
  induction h with
  | init => intro hne; exact absurd rfl hne
  | next s0 ev _ ih => exact step_preserves_speech_flag cont ev s0 ih

/-- Witness for C9 (amended) at the concrete reachable Speaking state with
accumulation "hello". -/
theorem claim_C9_amended_witness : VarA.c9state.hasSpeech = true :=
  claim_C9_amended true VarA.c9state
    (VarA.Reachable.next VarA.sA4 (VarA.Ev.speakCall (some "ok")) sA4_reachable)
    (by decide)
